import Mathlib

/-!
Verification of the node-datastore replicating data store.

This file gives a shallow embedding, in Lean 4, of the coordination core of
the node-datastore repository: the file-system index, the data store
replication engine (save/get), the id composition, the peer-to-peer network
index and network device, the peer transport correlation table, and the uPnP
gateway port mapping.  Each definition is translated from the JavaScript
source; where the source calls into the external async library, the
model follows that library, and the accompanying doc comment says so.
Machine behaviour that the source leaves to Node.js (file writes, datagram
delivery) is made explicit as boolean or schedule parameters, so every
definition is executable on concrete inputs.
-/

namespace NodeDatastore

/- ===================== JS object maps ===================== -/

/-- A JavaScript object used as a map: an association list whose keys are
unique.  `objSet` models `obj[k] = v` (replace in place when the key exists,
append otherwise, preserving key insertion order as JS objects do). -/
def objSet {α : Type} (m : List (String × α)) (k : String) (v : α) :
    List (String × α) :=
  match m with
  | [] => [(k, v)]
  | (k', v') :: rest =>
    if k' = k then (k, v) :: rest else (k', v') :: objSet rest k v

/-- Models `obj[k]` / `obj.hasOwnProperty(k)`: the first binding for `k`. -/
def objGet {α : Type} (m : List (String × α)) (k : String) : Option α :=
  match m with
  | [] => none
  | (k', v') :: rest => if k' = k then some v' else objGet rest k

/-- Models `delete obj[k]`: removes the binding for `k`, if present. -/
def objDelete {α : Type} (m : List (String × α)) (k : String) :
    List (String × α) :=
  match m with
  | [] => []
  | (k', v') :: rest =>
    if k' = k then rest else (k', v') :: objDelete rest k

/- ===================== Data model ===================== -/

/-- Item metadata: an opaque map of fields, plus the optional `nodes` key the
network index writes when it synthesizes an entry from a peer response
(`extend(remoteItem.metadata, ... nodes ... )` in NetworkIndex.getItem). -/
structure Metadata where
  fields : List (String × String)
  nodes : Option (List String) := none
deriving DecidableEq, Repr

/-- A per-device status record, `code` following HTTP conventions
(DataStoreItem.status: 200 success, 500 failure with a message). -/
structure StatusVal where
  code : Nat
  message : Option String := none
deriving DecidableEq, Repr

/-- An index entry, as stored by FileSystemIndex: the object
with fields id, metadata and status created in `createItem`. -/
structure Entry where
  id : String
  metadata : Metadata
  status : List (String × StatusVal)
deriving DecidableEq, Repr

/-- The in-memory index of FileSystemIndex: a JS object mapping id to entry. -/
abbrev IndexState := List (String × Entry)

/- ===================== FileSystemIndex ===================== -/

/-- FileSystemIndex.getItem (src/unnamed/part_001): if the index has the id,
the callback receives the item, else the error
`"Item " + id + " not found in the index."`. -/
def fsGetItem (idx : IndexState) (id : String) : Except String Entry :=
  match objGet idx id with
  | some e => Except.ok e
  | none => Except.error ("Item " ++ id ++ " not found in the index.")

/-- The error fs.writeFile reports when persisting the index fails; the
source passes it through untouched, so its text is modelled abstractly. -/
def indexWriteError : String := "EACCES: index write failed"

/-- Outcome of FileSystemIndex.createItem: the in-memory index afterwards,
and the two arguments of the callback (the saveIndex error, and the
DataStoreItem built from id, metadata and the entry status). -/
structure CreateResult where
  index : IndexState
  err : Option String
  item : Entry
deriving DecidableEq, Repr

/-- FileSystemIndex.createItem (src/unnamed/part_001 lines 119-131): builds
the entry with empty status, assigns `index[id] = item` unconditionally
(no existence check), then persists via saveIndex and invokes the callback
with the write error (if any) and the new item.  `writeOk` models whether
the fs.writeFile in saveIndex succeeds. -/
def fsCreateItem (idx : IndexState) (id : String) (md : Metadata)
    (writeOk : Bool) : CreateResult :=
  let item : Entry := { id := id, metadata := md, status := [] }
  { index := objSet idx id item
  , err := if writeOk then none else some indexWriteError
  , item := item }

/- ===================== SHA-256 ===================== -/

/- DataStore.generateId hashes the streamed bytes with Node crypto
createHash("sha256") and hex-encodes the digest.  The hash itself is an
external library; it is embedded here as the standard FIPS 180-4 SHA-256
over byte lists, executable so the spec vector for bytes 01 02 03 04 can
be checked by evaluation. -/

/-- Truncation to a 32-bit word. -/
def w32 (x : Nat) : Nat := x % 4294967296

/-- 32-bit right rotation. -/
def rotr32 (n x : Nat) : Nat := w32 ((x >>> n) ||| (x <<< (32 - n)))

/-- Unpacks a 256-bit limb into its eight 32-bit words, most significant
first. -/
def unpack8 (v : Nat) : List Nat :=
  (List.range 8).map (fun i => (v >>> (32 * (7 - i))) % 4294967296)

/-- The 64 SHA-256 round constants of FIPS 180-4, packed eight words to a
limb. -/
def sha256KPacked : List Nat :=
  [0x428a2f9871374491b5c0fbcfe9b5dba53956c25b59f111f1923f82a4ab1c5ed5,
   0xd807aa9812835b01243185be550c7dc372be5d7480deb1fe9bdc06a7c19bf174,
   0xe49b69c1efbe47860fc19dc6240ca1cc2de92c6f4a7484aa5cb0a9dc76f988da,
   0x983e5152a831c66db00327c8bf597fc7c6e00bf3d5a7914706ca635114292967,
   0x27b70a852e1b21384d2c6dfc53380d13650a7354766a0abb81c2c92e92722c85,
   0xa2bfe8a1a81a664bc24b8b70c76c51a3d192e819d6990624f40e3585106aa070,
   0x19a4c1161e376c082748774c34b0bcb5391c0cb34ed8aa4a5b9cca4f682e6ff3,
   0x748f82ee78a5636f84c878148cc7020890befffaa4506cebbef9a3f7c67178f2]

/-- The 64 SHA-256 round constants. -/
def sha256K : List Nat := (sha256KPacked.map unpack8).flatten

/-- The SHA-256 initial hash values. -/
def sha256H0 : List Nat :=
  unpack8 0x6a09e667bb67ae853c6ef372a54ff53a510e527f9b05688c1f83d9ab5be0cd19

/-- Takes `n` bytes of `v`, most significant first. -/
def bytesBE (n v : Nat) : List Nat :=
  (List.range n).map (fun i => (v >>> (8 * (n - 1 - i))) % 256)

/-- FIPS padding: append 0x80, zeros, and the 64-bit big-endian bit length,
reaching a multiple of 64 bytes. -/
def padMessage (msg : List Nat) : List Nat :=
  let zeros := (64 - (msg.length + 9) % 64) % 64
  msg ++ [0x80] ++ List.replicate zeros 0 ++ bytesBE 8 (msg.length * 8)

/-- Groups bytes into 32-bit big-endian words. -/
def toWords : List Nat → List Nat
  | a :: b :: c :: d :: rest =>
    (a * 0x1000000 + b * 0x10000 + c * 0x100 + d) :: toWords rest
  | _ => []

/-- Small sigma 0 of the message schedule. -/
def ssig0 (x : Nat) : Nat := (rotr32 7 x) ^^^ (rotr32 18 x) ^^^ (x >>> 3)

/-- Small sigma 1 of the message schedule. -/
def ssig1 (x : Nat) : Nat := (rotr32 17 x) ^^^ (rotr32 19 x) ^^^ (x >>> 10)

/-- Big sigma 0 of the compression function. -/
def bsig0 (x : Nat) : Nat := (rotr32 2 x) ^^^ (rotr32 13 x) ^^^ (rotr32 22 x)

/-- Big sigma 1 of the compression function. -/
def bsig1 (x : Nat) : Nat := (rotr32 6 x) ^^^ (rotr32 11 x) ^^^ (rotr32 25 x)

/-- The choice function Ch; the complement of `x` is taken within 32 bits. -/
def chFn (x y z : Nat) : Nat := (x &&& y) ^^^ ((x ^^^ 0xffffffff) &&& z)

/-- The majority function Maj. -/
def majFn (x y z : Nat) : Nat := (x &&& y) ^^^ (x &&& z) ^^^ (y &&& z)

/-- Extends a 16-word block with `n` further schedule words. -/
def extendSchedule (w : List Nat) : Nat → List Nat
  | 0 => w
  | n + 1 =>
    let i := w.length
    extendSchedule
      (w ++ [w32 (w.getD (i - 16) 0 + ssig0 (w.getD (i - 15) 0) +
                  w.getD (i - 7) 0 + ssig1 (w.getD (i - 2) 0))]) n

/-- One compression round on the state `[a, b, c, d, e, f, g, h]`. -/
def roundStep (st : List Nat) (kw : Nat × Nat) : List Nat :=
  match st with
  | [a, b, c, d, e, f, g, h] =>
    let t1 := w32 (h + bsig1 e + chFn e f g + kw.1 + kw.2)
    let t2 := w32 (bsig0 a + majFn a b c)
    [w32 (t1 + t2), a, b, c, w32 (d + t1), e, f, g]
  | other => other

/-- Compresses one 16-word block into the hash value. -/
def sha256Compress (hv : List Nat) (block : List Nat) : List Nat :=
  let w := extendSchedule block 48
  let st := (sha256K.zip w).foldl roundStep hv
  (hv.zip st).map (fun p => w32 (p.1 + p.2))

/-- Folds over `n` consecutive 16-word blocks. -/
def processBlocks (hv : List Nat) (ws : List Nat) : Nat → List Nat
  | 0 => hv
  | n + 1 => processBlocks (sha256Compress hv (ws.take 16)) (ws.drop 16) n

/-- SHA-256 digest of a byte list, as 32 bytes. -/
def sha256 (msg : List Nat) : List Nat :=
  let ws := toWords (padMessage msg)
  let hv := processBlocks sha256H0 ws (ws.length / 16)
  (hv.map (bytesBE 4)).flatten

/-- A nibble as a lowercase hex character. -/
def hexDigit (n : Nat) : Char :=
  if n < 10 then Char.ofNat (48 + n) else Char.ofNat (87 + n)

/-- A byte as two lowercase hex characters. -/
def byteHex (b : Nat) : String :=
  String.mk [hexDigit (b / 16), hexDigit (b % 16)]

/-- Lowercase hex encoding of a byte list, as crypto digest("hex") yields. -/
def toHex (bs : List Nat) : String := String.join (bs.map byteHex)

/- ===================== Id composition ===================== -/

/-- DataStore.composeId: append `"_" + namespace` when the namespace is
truthy.  A JS string is truthy exactly when it is non-empty, so an empty
namespace string leaves the id untouched, like an absent one. -/
def composeId (id : String) (ns : Option String) : String :=
  match ns with
  | some n => if n = "" then id else id ++ "_" ++ n
  | none => id

/-- The id DataStore.save computes in generateId: the lowercase hex SHA-256
digest of the streamed bytes, composed with the namespace. -/
def saveId (content : List Nat) (ns : Option String) : String :=
  composeId (toHex (sha256 content)) ns

/-- The namespace as save effectively uses it: an empty string is falsy in
the composeId test and so acts exactly like an absent namespace. -/
def nsEffective (ns : Option String) : Option String :=
  match ns with
  | some n => if n = "" then none else some n
  | none => none

/- ===================== Devices and DataStore.save ===================== -/

/-- A device as DataStore.save fans out to it, reduced to the one
observable choice a put makes: FileSystemDevice.put either closes the
write stream (status ⟨200⟩, callback with no error) or hits a stream
error `m` (status ⟨500, m⟩, callback with the error). -/
structure DeviceSpec where
  id : String
  putErr : Option String
deriving DecidableEq, Repr

/-- FileSystemDevice.put acting on the shared item status object:
success writes status code 200 for the device id, failure writes
code 500 with the error message; the callback mirrors `putErr`. -/
def devicePut (st : List (String × StatusVal)) (d : DeviceSpec) :
    List (String × StatusVal) :=
  match d.putErr with
  | none => objSet st d.id { code := 200 }
  | some m => objSet st d.id { code := 500, message := some m }

/-- What async.parallel hands its final callback.  Modelled from the
async library (external dependency) that DataStore.save uses: the final
callback receives the first task error, if any, and the results Array —
the Array object is passed even when a task failed (it is then only
partially filled), so the `results` argument is always truthy. -/
structure ParallelOutcome where
  err : Option String
  resultsPresent : Bool
  status : List (String × StatusVal)
deriving DecidableEq, Repr

/-- Runs every device put (async.parallel starts all tasks; each put sets
its slot of the shared status object) and reports the first error. -/
def asyncParallelPut (devices : List DeviceSpec) : ParallelOutcome :=
  { err := devices.findSome? (fun d => d.putErr)
  , resultsPresent := true
  , status := devices.foldl devicePut [] }

/-- Everything observable when one DataStore.save run resolves: the
callback invocations (error argument and item argument), the error
handler invocations `(err, id, namespace, type)`, whether the temporary
spool file still exists, the index afterwards, and the item status. -/
structure SaveOutcome where
  cb : List (Option String × Option Entry)
  ehCalls : List (String × String × Option String × String)
  spoolExists : Bool
  index : IndexState
  itemStatus : List (String × StatusVal)
deriving DecidableEq, Repr

/-- DataStore.save (node-datastore/lib/DataStore.js): generateId hashes the
stream into the id while spooling to a temp file; index.createItem; on an
index error the callback gets the error and save returns — without
unlinking the spool.  Otherwise the item is fanned out to all devices via
async.parallel; in its final callback the source tests
`!results && err && options.errorHandler` before notifying the error
handler and returning early, and only that dead-end branch sets hasError,
so the reachable path unlinks the spool and always resolves (null, item).
`indexWriteOk` models the saveIndex write, `hasErrorHandler` whether
options.errorHandler is configured. -/
def dsSave (content : List Nat) (ns : Option String) (md : Metadata)
    (devices : List DeviceSpec) (idx : IndexState)
    (indexWriteOk : Bool) (hasErrorHandler : Bool) : SaveOutcome :=
  let id := saveId content ns
  let cr := fsCreateItem idx id md indexWriteOk
  match cr.err with
  | some e =>
    -- `if (err) { callback(err); return; }` — the spool is not unlinked
    { cb := [(some e, none)], ehCalls := [], spoolExists := true
    , index := cr.index, itemStatus := [] }
  | none =>
    let par := asyncParallelPut devices
    let item : Entry := { cr.item with status := par.status }
    if par.resultsPresent = false ∧ par.err.isSome ∧ hasErrorHandler then
      -- `return options.errorHandler(err, id, namespace, "save")`:
      -- no unlink, no callback (this also is the only place hasError is set)
      { cb := []
      , ehCalls := [(par.err.getD "", id, ns, "save")]
      , spoolExists := true
      , index := objSet cr.index id item, itemStatus := par.status }
    else
      -- fs.unlinkSync(swapFile); hasError is still false here, so the
      -- "Item could not be sent to some devices" branch cannot run
      { cb := [(none, some item)], ehCalls := [], spoolExists := false
      , index := objSet cr.index id item, itemStatus := par.status }

/- ===================== DataStore.get ===================== -/

/-- A device as DataStore.get probes it: its ping answer and whether it
reports the item as existing. -/
structure GetDevice where
  id : String
  ping : Bool
  hasItem : Entry → Bool

/-- The async.detect iterator of DataStore.get, which answers
`device.exists(item)` when the ping succeeds and false otherwise, walked
over the device list.  Detection is modelled in list order: under the
single-threaded cooperative model, tasks started in order with uniform
completion answer in order. -/
def detectAvailable (devices : List GetDevice) (item : Entry) :
    Option GetDevice :=
  match devices with
  | [] => none
  | d :: rest =>
    if d.ping then
      if d.hasItem item then some d else detectAvailable rest item
    else detectAvailable rest item

/-- Outcome of DataStore.get: either the error handed to the callback or
the id of the device whose get served the item, plus every device.get
invocation made. -/
structure GetOutcome where
  result : Except String String
  getsInvoked : List String
deriving Repr

/-- DataStore.get: compose the id, fetch the item from the index
(propagating the index error), detect an available device, and either
invoke device.get on it or fail with the no-available-device error. -/
def dsGet (devices : List GetDevice) (idx : IndexState) (id : String)
    (ns : Option String) : GetOutcome :=
  match fsGetItem idx (composeId id ns) with
  | Except.error e => { result := Except.error e, getsInvoked := [] }
  | Except.ok item =>
    match detectAvailable devices item with
    | none =>
      { result :=
          Except.error "There\x27s no available device to retrieve the item."
      , getsInvoked := [] }
    | some d => { result := Except.ok d.id, getsInvoked := [d.id] }

/- ===================== NetworkDevice ===================== -/

/-- Modelled from the spec: FileSystemDevice exposes the content path of an
item — `baseDir/<id[0:2]>/<id[2:6]>/<id[4:10]>/<id>` — which NetworkDevice
calls as `base.getFile(item)`; the FileSystemDevice snapshot under src/
lacks that accessor, but its private buildFullPath computes the same path
from the same substrings. -/
def getFile (baseDir : String) (item : Entry) : String :=
  baseDir ++ "/" ++ (item.id.take 2) ++ "/" ++ ((item.id.drop 2).take 4) ++
    "/" ++ ((item.id.drop 4).take 6) ++ "/" ++ item.id

/-- Equality of Except values is decidable componentwise; this lets the
concrete witnesses below be checked by `decide`. -/
instance exceptDecEq {α β : Type} [DecidableEq α] [DecidableEq β] :
    DecidableEq (Except α β) := fun x y =>
  match x, y with
  | Except.ok a, Except.ok b =>
    if h : a = b then isTrue (by rw [h])
    else isFalse (fun hh => by cases hh; exact h rfl)
  | Except.error a, Except.error b =>
    if h : a = b then isTrue (by rw [h])
    else isFalse (fun hh => by cases hh; exact h rfl)
  | Except.ok _, Except.error _ => isFalse (fun hh => by cases hh)
  | Except.error _, Except.ok _ => isFalse (fun hh => by cases hh)

/-- A peer as NetworkDevice.get reaches it: its id and address plus its
own local device content, keyed by item id (each peer resolves an item to
its own content path over its own base directory). -/
structure PeerNode where
  id : String
  address : String
  port : Nat
  store : List (String × List Nat)
deriving DecidableEq, Repr

/-- Outcome of one NetworkDevice.get run: the callback invocation if any
(`none` means the requester is never called back), the requesting node
local file system afterwards, the peer fetched over HTTP if any, and the
bytes that arrived. -/
structure NetGetOutcome where
  result : Option (Except String Entry)
  localFs : List (String × List Nat)
  fetchedFrom : Option String
  bytes : Option (List Nat)
deriving DecidableEq, Repr

/-- NetworkDevice.get (node-datastore-p2p/lib/NetworkDevice.js lines
274-290 with createContentStream, lines 163-212): when the local device
already has the content, delegate to the local get.  Otherwise
findItemAndWait broadcasts nd:get; every peer answer is non-error — the
nd:get handler answers `(port)` whenever the local get reports no error,
and FileSystemDevice.get signals success unconditionally — so the first
peer of the list is the first responder and wins the done flag.  The
requester then issues the HTTP GET against that peer: when the peer has
the bytes the response is 200, they are spooled into the local content
path and the callback gets the item; when it does not, serving the item
pipes a failing read stream, no response completes, and the requester is
never called back.  With no peers there is no response either
(broadcasts have no timeout in the source). -/
def networkDeviceGet (baseDir : String) (localFs : List (String × List Nat))
    (peers : List PeerNode) (item : Entry) : NetGetOutcome :=
  let p := getFile baseDir item
  match objGet localFs p with
  | some bs =>
    { result := some (Except.ok item), localFs := localFs
    , fetchedFrom := none, bytes := some bs }
  | none =>
    match peers with
    | [] =>
      { result := none, localFs := localFs
      , fetchedFrom := none, bytes := none }
    | first :: _ =>
      match objGet first.store item.id with
      | some bs =>
        { result := some (Except.ok item)
        , localFs := objSet localFs p bs
        , fetchedFrom := some first.id, bytes := some bs }
      | none =>
        { result := none, localFs := localFs
        , fetchedFrom := some first.id, bytes := none }

/-- FileSystemDevice.exists on the requesting node: a file-system
existence check on the content path. -/
def localDeviceExists (baseDir : String) (localFs : List (String × List Nat))
    (item : Entry) : Bool :=
  (objGet localFs (getFile baseDir item)).isSome

/- ===================== NetworkIndex.getItem ===================== -/

/-- The payload of an index:getItem answer: the id and metadata a peer
returns for the requested entry. -/
structure RespData where
  id : String
  metadata : Metadata
deriving DecidableEq, Repr

/-- One datagram answer to a broadcast, in arrival order: a peer response
carrying data, or a peer response carrying an error. -/
inductive Arrival where
  | ok (peerId : String) (d : RespData)
  | err (peerId : String) (e : String)
deriving DecidableEq, Repr

/-- True for a data-carrying arrival. -/
def Arrival.isOk : Arrival → Bool
  | Arrival.ok _ _ => true
  | Arrival.err _ _ => false

/-- The broadcast response listeners of NetworkIndex (NetworkDevice.js
lines 1085-1104) run over the arrivals: the error listener calls the
callback on every error response — it is not guarded by the done flag —
while the response listener consumes only the first data response, turns
it into a local createItem of the returned id with the metadata extended
with `nodes: [respondingPeer.id]`, and drops every later one. -/
def processResponses (idx : IndexState) (sched : List Arrival)
    (done : Bool) : List (Except String Entry) × IndexState :=
  match sched with
  | [] => ([], idx)
  | Arrival.err _ e :: rest =>
    let (cbs, idx') := processResponses idx rest done
    (Except.error e :: cbs, idx')
  | Arrival.ok p d :: rest =>
    if done then processResponses idx rest done
    else
      let cr := fsCreateItem idx d.id { d.metadata with nodes := some [p] } true
      let (cbs, idx') := processResponses cr.index rest true
      (Except.ok cr.item :: cbs, idx')

/-- Outcome of NetworkIndex.getItem: the callback invocations, in order,
and the local index afterwards. -/
structure GetItemOutcome where
  cb : List (Except String Entry)
  index : IndexState
deriving DecidableEq, Repr

/-- NetworkIndex.getItem (NetworkDevice.js lines 1142-1163): a local hit
answers from the local index; a miss broadcasts index:getItem to the
peers of the network map and reacts to the arrival schedule.  The source
has no broadcast timeout (TODO there), so an empty schedule invokes no
callback at all. -/
def networkIndexGetItem (idx : IndexState) (id : String)
    (sched : List Arrival) : GetItemOutcome :=
  match objGet idx id with
  | some e => { cb := [Except.ok e], index := idx }
  | none =>
    let (cbs, idx') := processResponses idx sched false
    { cb := cbs, index := idx' }

/- ===================== Transport correlation ===================== -/

/-- The per-peer transport object of NetworkManager: the peer it talks to
and the outstanding broadcast requests keyed by request id.  The JS value
is one object holding a `peer` field next to the request-id keys;
separating them here keeps both lookups explicit. -/
structure Transport where
  peer : String
  reqs : List (String × String)
deriving DecidableEq, Repr

/-- peerRequests of NetworkManager: peer id to transport. -/
abbrev PeerRequests := List (String × Transport)

/-- A response datagram as handlePeerResponse reads it. -/
structure PeerResponse where
  source : String
  id : String
  broadcast : Bool
  error : Option String
  data : String
deriving DecidableEq, Repr

/-- What one handlePeerResponse call emits on the matched message. -/
inductive Emission where
  | response (peer : String) (data : String)
  | errored (e : String)
  | nothing
deriving DecidableEq, Repr

/-- NetworkManager.handlePeerResponse (NetworkManager.js lines 187-202):
look up the transport by the response source and the message by the
response id; for a broadcast response execute
`delete transport[response.source]` — the key deleted is the source peer
id, not the request id, so the correlation entry for the request
survives; then emit error or response on the matched message. -/
def handlePeerResponse (tbl : PeerRequests) (resp : PeerResponse) :
    PeerRequests × Emission :=
  match objGet tbl resp.source with
  | none => (tbl, Emission.nothing)
  | some t =>
    let tbl' :=
      if resp.broadcast then
        objSet tbl resp.source { t with reqs := objDelete t.reqs resp.source }
      else tbl
    match objGet t.reqs resp.id with
    | none => (tbl', Emission.nothing)
    | some _ =>
      match resp.error with
      | some e => (tbl', Emission.errored e)
      | none => (tbl', Emission.response t.peer resp.data)

/-- NetworkManager.send for a broadcast message: for each target, the
transport for the peer is created or extended and the message is filed
under the request id. -/
def registerBroadcast (tbl : PeerRequests) (targets : List String)
    (reqId : String) : PeerRequests :=
  targets.foldl
    (fun acc pid =>
      let tr := (objGet acc pid).getD { peer := pid, reqs := [] }
      objSet acc pid { peer := pid, reqs := objSet tr.reqs reqId reqId })
    tbl

/-- Feeds a list of responses through handlePeerResponse and the
done-guarded broadcast response listener (the caller of
networkManager.send in NetworkIndex.broadcast): data emissions reach the
caller only while done is unset; error emissions always reach it. -/
def runResponses (tbl : PeerRequests) (resps : List PeerResponse)
    (done : Bool) : PeerRequests × List (Except String (String × String)) :=
  match resps with
  | [] => (tbl, [])
  | r :: rest =>
    let (tbl', em) := handlePeerResponse tbl r
    match em with
    | Emission.response p d =>
      if done then runResponses tbl' rest done
      else
        let (tbl'', cbs) := runResponses tbl' rest true
        (tbl'', Except.ok (p, d) :: cbs)
    | Emission.errored e =>
      let (tbl'', cbs) := runResponses tbl' rest done
      (tbl'', Except.error e :: cbs)
    | Emission.nothing => runResponses tbl' rest done

/- ===================== Gateway port mapping ===================== -/

/-- One uPnP port mapping as the gateway reports it. -/
structure Mapping where
  protocol : String
  externalPort : Nat
  internalPort : Nat
  internalClient : String
  description : String
deriving DecidableEq, Repr

/-- The namespace the Gateway instance scopes its operations with:
`namespace || "node:Gateway"` (an empty string is falsy and also falls
back to the default). -/
def gatewayNamespace (ns : Option String) : String :=
  match ns with
  | some n => if n = "" then "node:Gateway" else n
  | none => "node:Gateway"

/-- Gateway.openPort (FileSystemDevice.js lines 932-956): one
AddPortMapping SOAP call per non-loopback IPv4 local address,
sequentially, mapping the external port to the same internal port; the
NewPortMappingDescription parameter is the literal string "desc". -/
def openPortMappings (protocol : String) (port : Nat)
    (addresses : List String) : List Mapping :=
  addresses.map (fun a =>
    { protocol := protocol, externalPort := port, internalPort := port
    , internalClient := a, description := "desc" })

/-- Gateway.listOpenPorts (FileSystemDevice.js lines 963-1000): walk the
gateway mapping table until fault 713 and keep exactly the entries whose
NewPortMappingDescription equals the instance namespace. -/
def listOpenPorts (ns : Option String) (deviceMappings : List Mapping) :
    List Mapping :=
  deviceMappings.filter (fun m => m.description = gatewayNamespace ns)

/- ===================== Concrete inputs ===================== -/

/-- A device whose put fails with a stream error, as a misconfigured
(read-only base) FileSystemDevice would. -/
def failingDevice : DeviceSpec :=
  { id := "FileSystemDevice", putErr := some "EACCES: permission denied" }

/-- A device whose put succeeds. -/
def goodDevice : DeviceSpec := { id := "FileSystemDevice2", putErr := none }

/-- Sample metadata for concrete runs. -/
def sampleMeta : Metadata := { fields := [("name", "t")] }

/-- A second, different sample metadata. -/
def sampleMeta2 : Metadata := { fields := [("name", "u")] }

/-- A device that fails its ping. -/
def offlineDevice : GetDevice :=
  { id := "offline", ping := false, hasItem := fun _ => true }

/-- A pinging device that does not report the item. -/
def emptyDevice : GetDevice :=
  { id := "empty", ping := true, hasItem := fun _ => false }

/-- A pinging device that reports every item. -/
def fullDevice : GetDevice :=
  { id := "full", ping := true, hasItem := fun _ => true }

/-- A one-entry index for concrete runs. -/
def sampleIndex : IndexState :=
  [("abc", { id := "abc", metadata := sampleMeta, status := [] })]

/-- An item for concrete network-device runs. -/
def itemX : Entry :=
  { id := "0123456789abcdef", metadata := sampleMeta, status := [] }

/-- A peer whose local device lacks itemX. -/
def peerWithout : PeerNode :=
  { id := "peer-a", address := "10.0.0.1", port := 8080, store := [] }

/-- A peer whose local device holds itemX. -/
def peerWith : PeerNode :=
  { id := "peer-b", address := "10.0.0.2", port := 8081
  , store := [("0123456789abcdef", [9, 9, 9])] }

/-- A peer answer to index:getItem for id foo. -/
def respFoo : RespData := { id := "foo", metadata := sampleMeta }

/-- The correlation table after broadcasting request req-1 to two peers. -/
def c6Table : PeerRequests := registerBroadcast [] ["peer-1", "peer-2"] "req-1"

/-- The first response of peer-1 to req-1. -/
def c6Resp1 : PeerResponse :=
  { source := "peer-1", id := "req-1", broadcast := true, error := none
  , data := "answer-1" }

/-- A later response of peer-2 carrying the same correlation id. -/
def c6Resp2 : PeerResponse :=
  { source := "peer-2", id := "req-1", broadcast := true, error := none
  , data := "answer-2" }

/- ===================== Helper lemmas ===================== -/

theorem objGet_objSet_self {α : Type} (m : List (String × α)) (k : String)
    (v : α) : objGet (objSet m k v) k = some v := by
  induction m with
  | nil => simp [objSet, objGet]
  | cons hd tl ih =>
    obtain ⟨k', v'⟩ := hd
    by_cases h : k' = k
    · simp [objSet, objGet, h]
    · simp [objSet, objGet, h, ih]

theorem objGet_objSet_ne {α : Type} (m : List (String × α)) (k k' : String)
    (v : α) (h : k' ≠ k) : objGet (objSet m k v) k' = objGet m k' := by
  induction m with
  | nil => simp [objSet, objGet, Ne.symm h]
  | cons hd tl ih =>
    obtain ⟨k0, v0⟩ := hd
    by_cases h0 : k0 = k
    · subst h0
      simp [objSet, objGet, Ne.symm h]
    · simp only [objSet, if_neg h0]
      by_cases h1 : k0 = k'
      · simp [objGet, h1]
      · simp [objGet, h1, ih]

theorem mem_objSet_elim {α : Type} (m : List (String × α)) (k k1 : String)
    (v v1 : α) (hmem : (k1, v1) ∈ objSet m k v) : k1 = k ∨ (k1, v1) ∈ m := by
  induction m with
  | nil =>
    simp [objSet] at hmem
    left; exact hmem.1
  | cons hd tl ih =>
    obtain ⟨k2, v2⟩ := hd
    by_cases h2 : k2 = k
    · simp [objSet, h2] at hmem
      rcases hmem with h3 | h3
      · left; exact h3.1
      · right; exact List.mem_cons_of_mem _ h3
    · simp only [objSet, if_neg h2, List.mem_cons] at hmem
      rcases hmem with h3 | h3
      · right
        rw [List.mem_cons]
        left; exact h3
      · rcases ih h3 with h4 | h4
        · left; exact h4
        · right; exact List.mem_cons_of_mem _ h4

theorem objSet_keys_nodup {α : Type} (m : List (String × α)) (k : String)
    (v : α) (h : (m.map Prod.fst).Nodup) :
    ((objSet m k v).map Prod.fst).Nodup := by
  induction m with
  | nil => simp [objSet]
  | cons hd tl ih =>
    obtain ⟨k0, v0⟩ := hd
    simp only [List.map_cons, List.nodup_cons] at h
    by_cases h0 : k0 = k
    · subst h0
      simpa [objSet] using h
    · simp only [objSet, if_neg h0, List.map_cons, List.nodup_cons]
      refine ⟨?_, ih h.2⟩
      intro hmem
      rcases List.mem_map.mp hmem with ⟨⟨k1, v1⟩, hk1, hfst⟩
      rcases mem_objSet_elim tl k k1 v v1 hk1 with h4 | h4
      · exact h0 (hfst ▸ h4)
      · exact h.1 (List.mem_map.mpr ⟨(k1, v1), h4, hfst⟩)

theorem string_append_underscore_ne (h n : String) : (h ++ "_") ++ n ≠ h := by
  intro heq
  have hlen := congrArg String.length heq
  rw [String.length_append, String.length_append] at hlen
  have hu : ("_" : String).length = 1 := rfl
  omega

theorem string_append_cancel_left (s t1 t2 : String) (h : s ++ t1 = s ++ t2) :
    t1 = t2 := by
  apply String.ext
  have hd := congrArg String.data h
  rw [String.data_append, String.data_append] at hd
  exact List.append_cancel_left hd

/- ===================== Claim C2 ===================== -/

/-- C2, counterexample: the claim quantifies the namespace over the empty
string as well, but composeId tests JS truthiness, so the empty-string
namespace produces the same id as an absent namespace for the same
content — two different namespaces, one id. -/
theorem c2_counterexample :
    saveId [1, 2, 3, 4] (some "") = saveId [1, 2, 3, 4] none ∧
      (some "" : Option String) ≠ (none : Option String) := by
  refine ⟨by simp [saveId, composeId], by simp⟩

/-- C2, amended: the id save produces is the lowercase hex SHA-256 digest
of the content composed with the namespace (matching the spec vector for
bytes 01 02 03 04), and for fixed content the ids under two namespaces
differ exactly when the namespaces differ after identifying the falsy
empty-string namespace with an absent one. -/
theorem c2_id_composition_amended (S : List Nat) (N1 N2 : Option String) :
    saveId S N1 = composeId (toHex (sha256 S)) N1 ∧
    toHex (sha256 [1, 2, 3, 4]) =
      "9f64a747e1b97f131fabb6b447296c9b6f0201e79fb3c5356e6c77e89b6a806a" ∧
    (saveId S N1 = saveId S N2 ↔ nsEffective N1 = nsEffective N2) := by
  refine ⟨rfl, by decide, ?_⟩
  rcases N1 with _ | n1 <;> rcases N2 with _ | n2
  · simp [saveId, composeId, nsEffective]
  · by_cases h2 : n2 = ""
    · simp [saveId, composeId, nsEffective, h2]
    · simp only [saveId, composeId, nsEffective, if_neg h2]
      constructor
      · intro heq
        exact absurd heq.symm (string_append_underscore_ne _ _)
      · intro heq
        exact absurd heq (by simp)
  · by_cases h1 : n1 = ""
    · simp [saveId, composeId, nsEffective, h1]
    · simp only [saveId, composeId, nsEffective, if_neg h1]
      constructor
      · intro heq
        exact absurd heq (string_append_underscore_ne _ _)
      · intro heq
        exact absurd heq (by simp)
  · by_cases h1 : n1 = "" <;> by_cases h2 : n2 = ""
    · simp [saveId, composeId, nsEffective, h1, h2]
    · simp only [saveId, composeId, nsEffective, if_pos h1, if_neg h2]
      constructor
      · intro heq
        exact absurd heq.symm (string_append_underscore_ne _ _)
      · intro heq
        exact absurd heq (by simp)
    · simp only [saveId, composeId, nsEffective, if_neg h1, if_pos h2]
      constructor
      · intro heq
        exact absurd heq (string_append_underscore_ne _ _)
      · intro heq
        exact absurd heq (by simp)
    · simp only [saveId, composeId, nsEffective, if_neg h1, if_neg h2]
      constructor
      · intro heq
        rw [string_append_cancel_left _ _ _ heq]
      · intro heq
        rw [Option.some_inj] at heq
        rw [heq]

/- ===================== Claim C3 ===================== -/

/-- C3, counterexample: a second createItem with the id of an existing
entry neither errors nor returns the old entry — it replaces the entry,
adopting the new metadata and resetting the status (createItem assigns
`index[id] = item` with no existence check). -/
theorem c3_counterexample :
    (fsCreateItem (fsCreateItem [] "a" sampleMeta true).index "a" sampleMeta2
        true).err = none ∧
    objGet (fsCreateItem (fsCreateItem [] "a" sampleMeta true).index "a"
        sampleMeta2 true).index "a" =
      some { id := "a", metadata := sampleMeta2, status := [] } ∧
    sampleMeta2 ≠ sampleMeta := by decide

/-- C3, amended: a second createItem with an existing id replaces the
entry: afterwards the index maps the id to the fresh entry with the new
metadata and empty status, every other id is untouched, the keys stay
duplicate-free (a JS object cannot hold two bindings for one key), and no
error is reported unless the persistence write itself fails. -/
theorem c3_createItem_replaces_amended (idx : IndexState) (id : String)
    (md : Metadata) (writeOk : Bool)
    (hnd : (idx.map Prod.fst).Nodup) :
    objGet (fsCreateItem idx id md writeOk).index id =
      some { id := id, metadata := md, status := [] } ∧
    (∀ k, k ≠ id →
      objGet (fsCreateItem idx id md writeOk).index k = objGet idx k) ∧
    (((fsCreateItem idx id md writeOk).index.map Prod.fst).Nodup) ∧
    (fsCreateItem idx id md writeOk).err =
      (if writeOk then none else some indexWriteError) := by
  refine ⟨objGet_objSet_self idx id _, ?_, objSet_keys_nodup idx id _ hnd, rfl⟩
  intro k hk
  exact objGet_objSet_ne idx id k _ hk

/-- C3, witness: the amended theorem applied to the empty index. -/
theorem c3_witness :
    objGet (fsCreateItem [] "a" sampleMeta true).index "a" =
      some { id := "a", metadata := sampleMeta, status := [] } :=
  (c3_createItem_replaces_amended [] "a" sampleMeta true (by simp)).1

/- ===================== Claim C10 ===================== -/

/-- C10, confirmed: when the index write fails during createItem, the
in-memory index still holds the new entry, the callback receives both the
error and the created item, and a subsequent getItem of the id succeeds —
createItem performs no rollback on persistence failure. -/
theorem c10_createItem_no_rollback (idx : IndexState) (id : String)
    (md : Metadata) :
    (fsCreateItem idx id md false).err = some indexWriteError ∧
    (fsCreateItem idx id md false).item =
      { id := id, metadata := md, status := [] } ∧
    objGet (fsCreateItem idx id md false).index id =
      some { id := id, metadata := md, status := [] } ∧
    fsGetItem (fsCreateItem idx id md false).index id =
      Except.ok { id := id, metadata := md, status := [] } := by
  refine ⟨rfl, rfl, objGet_objSet_self idx id _, ?_⟩
  show fsGetItem (objSet idx id _) id = _
  rw [fsGetItem, objGet_objSet_self]

/- ===================== Claim C1 ===================== -/

/-- C1, the code at the failing input: saving bytes 01 02 03 04 with one
failing device and a configured error handler invokes the error handler
zero times and the callback exactly once with (null, item) — because
async.parallel always passes the results array, the guard
`!results && err && options.errorHandler` never fires and hasError stays
false — while the item (with the 500 status) does remain in the index. -/
theorem c1_save_failure_run :
    (dsSave [1, 2, 3, 4] none sampleMeta [failingDevice] [] true true).ehCalls
        = [] ∧
    (dsSave [1, 2, 3, 4] none sampleMeta [failingDevice] [] true true).cb =
      [(none, some { id := saveId [1, 2, 3, 4] none, metadata := sampleMeta
                   , status := [("FileSystemDevice",
                       { code := 500
                       , message := some "EACCES: permission denied" })] })] ∧
    objGet
        (dsSave [1, 2, 3, 4] none sampleMeta [failingDevice] [] true true).index
        (saveId [1, 2, 3, 4] none) =
      some { id := saveId [1, 2, 3, 4] none, metadata := sampleMeta
           , status := [("FileSystemDevice",
               { code := 500, message := some "EACCES: permission denied" })] }
    := by
  refine ⟨?_, ?_, ?_⟩ <;>
    simp [dsSave, fsCreateItem, asyncParallelPut, devicePut, failingDevice,
      objGet, objSet]

/- ===================== Claim C8 ===================== -/

/-- C8, counterexample: when index.createItem reports a persistence error,
save resolves with that error but the temporary spool file still exists —
the early return skips fs.unlinkSync. -/
theorem c8_counterexample :
    (dsSave [1, 2, 3, 4] none sampleMeta [goodDevice] [] false true).spoolExists
        = true ∧
    (dsSave [1, 2, 3, 4] none sampleMeta [goodDevice] [] false true).cb =
      [(some indexWriteError, none)] := by
  constructor <;> simp [dsSave, fsCreateItem]

/-- C8, amended: the spool file is unlinked exactly on the runs where
index.createItem persists without error (whatever the devices do: the
device fan-out completion path always unlinks before resolving); when the
index write fails, save resolves with the error and the spool survives. -/
theorem c8_spool_cleanup_amended (content : List Nat) (ns : Option String)
    (md : Metadata) (devices : List DeviceSpec) (idx : IndexState)
    (writeOk hasEH : Bool) :
    (dsSave content ns md devices idx writeOk hasEH).spoolExists = !writeOk := by
  cases writeOk <;> simp [dsSave, fsCreateItem, asyncParallelPut]

/- ===================== Claim C7 ===================== -/

/-- C7, confirmed: with a successful index lookup, DataStore.get serves
the item from the first device of the configured list whose ping and
exists checks both succeed (async.detect walked in list order under the
cooperative model), and when no device qualifies the callback receives
the no-available-device error and no device.get runs. -/
theorem c7_first_available_device (devices : List GetDevice)
    (idx : IndexState) (id : String) (ns : Option String) (item : Entry)
    (h : fsGetItem idx (composeId id ns) = Except.ok item) :
    (devices.find? (fun d => d.ping && d.hasItem item) = none →
      (dsGet devices idx id ns).result =
        Except.error "There\x27s no available device to retrieve the item." ∧
      (dsGet devices idx id ns).getsInvoked = []) ∧
    (∀ d, devices.find? (fun d => d.ping && d.hasItem item) = some d →
      (dsGet devices idx id ns).result = Except.ok d.id ∧
      (dsGet devices idx id ns).getsInvoked = [d.id]) := by
  have hdetect : detectAvailable devices item =
      devices.find? (fun d => d.ping && d.hasItem item) := by
    induction devices with
    | nil => simp [detectAvailable]
    | cons d rest ih =>
      by_cases hp : d.ping <;> by_cases he : d.hasItem item <;>
        simp [detectAvailable, hp, he, ih, List.find?_cons]
  constructor
  · intro hnone
    simp [dsGet, h, hdetect, hnone]
  · intro d hd
    simp [dsGet, h, hdetect, hd]

/-- C7, witness: the theorem applied to a device list whose first
qualifying device is the third one. -/
theorem c7_witness :
    (dsGet [offlineDevice, emptyDevice, fullDevice] sampleIndex "abc"
        none).result = Except.ok "full" ∧
    (dsGet [offlineDevice, emptyDevice, fullDevice] sampleIndex "abc"
        none).getsInvoked = ["full"] :=
  (c7_first_available_device [offlineDevice, emptyDevice, fullDevice]
      sampleIndex "abc" none
      { id := "abc", metadata := sampleMeta, status := [] } rfl).2
    fullDevice rfl

/- ===================== Claim C4 ===================== -/

/-- C4, counterexample: itemX is absent from the requesting node and
present on a reachable peer (the second), yet the get does not resolve
with the bytes and nothing is spooled — the first peer also answers the
nd:get broadcast (the local get it consults signals success without
checking the file), wins the done flag, and the HTTP fetch against it
never completes. -/
theorem c4_counterexample :
    (networkDeviceGet "base" [] [peerWithout, peerWith] itemX).result = none ∧
    localDeviceExists "base"
        (networkDeviceGet "base" [] [peerWithout, peerWith] itemX).localFs
        itemX = false ∧
    (objGet peerWith.store itemX.id).isSome = true := by decide

/-- C4, amended: when the item is absent locally and the first peer of
the broadcast list — the first responding peer — holds the content, the
network-device get resolves with the item, fetches the bytes over HTTP
from that peer, spools them into the local content path, and a subsequent
local-device exists check succeeds. -/
theorem c4_network_get_amended (baseDir : String)
    (localFs : List (String × List Nat)) (first : PeerNode)
    (rest : List PeerNode) (item : Entry) (bs : List Nat)
    (hmiss : objGet localFs (getFile baseDir item) = none)
    (hfirst : objGet first.store item.id = some bs) :
    (networkDeviceGet baseDir localFs (first :: rest) item).result =
      some (Except.ok item) ∧
    (networkDeviceGet baseDir localFs (first :: rest) item).fetchedFrom =
      some first.id ∧
    (networkDeviceGet baseDir localFs (first :: rest) item).bytes = some bs ∧
    localDeviceExists baseDir
      (networkDeviceGet baseDir localFs (first :: rest) item).localFs item
      = true := by
  simp only [networkDeviceGet, hmiss, hfirst]
  simp [localDeviceExists, objGet_objSet_self]

/-- C4, witness: the amended theorem applied to a single peer that holds
the bytes. -/
theorem c4_witness :
    (networkDeviceGet "base" [] [peerWith] itemX).result =
      some (Except.ok itemX) ∧
    (networkDeviceGet "base" [] [peerWith] itemX).fetchedFrom =
      some peerWith.id ∧
    (networkDeviceGet "base" [] [peerWith] itemX).bytes = some [9, 9, 9] ∧
    localDeviceExists "base"
      (networkDeviceGet "base" [] [peerWith] itemX).localFs itemX = true :=
  c4_network_get_amended "base" [] peerWith [] itemX [9, 9, 9] rfl rfl

/- ===================== Claim C5 ===================== -/

/-- C5, counterexample: with a local miss and no peer responding, the
getItem callback is never invoked — the source has no broadcast timeout,
so no not-found error is surfaced. -/
theorem c5_counterexample :
    (networkIndexGetItem [] "foo" []).cb = [] ∧
    (networkIndexGetItem [] "foo" []).index = [] := by decide

/-- When the done flag is set and only data responses remain, the
listeners consume nothing further. -/
theorem processResponses_done_all_ok (idx : IndexState) (l : List Arrival)
    (h : l.all Arrival.isOk = true) : processResponses idx l true = ([], idx) := by
  induction l with
  | nil => rfl
  | cons a rest ih =>
    cases a with
    | ok p d =>
      simp only [List.all_cons, Bool.and_eq_true] at h
      simp [processResponses, ih h.2]
    | err p e => simp [List.all_cons, Arrival.isOk] at h

/-- C5, amended: a local hit answers locally; on a miss whose first
arrival is a data response (and no error responses arrive), the callback
fires exactly once with the entry synthesized from that response — its
metadata extended with nodes set to the responding peer — the entry is
stored in the local index, and a subsequent getItem of that id is a local
hit; with no responses at all the callback is never invoked, there being
no broadcast timeout in the source. -/
theorem c5_network_index_get_amended (idx : IndexState) (id : String)
    (sched : List Arrival) :
    (∀ e, objGet idx id = some e →
      networkIndexGetItem idx id sched =
        { cb := [Except.ok e], index := idx }) ∧
    (objGet idx id = none → (networkIndexGetItem idx id []).cb = []) ∧
    (∀ p d rest, objGet idx id = none → rest.all Arrival.isOk = true →
      (networkIndexGetItem idx id (Arrival.ok p d :: rest)).cb =
        [Except.ok { id := d.id
                   , metadata := { d.metadata with nodes := some [p] }
                   , status := [] }] ∧
      objGet (networkIndexGetItem idx id (Arrival.ok p d :: rest)).index d.id =
        some { id := d.id, metadata := { d.metadata with nodes := some [p] }
             , status := [] } ∧
      (networkIndexGetItem
          (networkIndexGetItem idx id (Arrival.ok p d :: rest)).index d.id
          sched).cb =
        [Except.ok { id := d.id
                   , metadata := { d.metadata with nodes := some [p] }
                   , status := [] }]) := by
  refine ⟨?_, ?_, ?_⟩
  · intro e he
    simp [networkIndexGetItem, he]
  · intro hmiss
    simp [networkIndexGetItem, hmiss, processResponses]
  · intro p d rest hmiss hall
    have hrun : processResponses idx (Arrival.ok p d :: rest) false =
        ([Except.ok { id := d.id
                    , metadata := { d.metadata with nodes := some [p] }
                    , status := [] }],
         objSet idx d.id
           { id := d.id, metadata := { d.metadata with nodes := some [p] }
           , status := [] }) := by
      simp [processResponses, fsCreateItem,
        processResponses_done_all_ok _ rest hall]
    refine ⟨?_, ?_, ?_⟩
    · simp [networkIndexGetItem, hmiss, hrun]
    · simp [networkIndexGetItem, hmiss, hrun, objGet_objSet_self]
    · simp [networkIndexGetItem, hmiss, hrun, objGet_objSet_self]

/-- C5, witness: the amended theorem applied to an empty index with one
responding peer. -/
theorem c5_witness :
    (networkIndexGetItem [] "foo" [Arrival.ok "peer-a" respFoo]).cb =
      [Except.ok { id := "foo"
                 , metadata := { sampleMeta with nodes := some ["peer-a"] }
                 , status := [] }] :=
  ((c5_network_index_get_amended [] "foo" []).2.2 "peer-a" respFoo [] rfl
      rfl).1

/- ===================== Claim C6 ===================== -/

/-- C6, the code at the failing input: after broadcasting request req-1
to two peers, the run over three data responses resolves the caller
exactly once with the first response — but the correlation entry keyed
(peer-1, req-1) is still in the table after that first response was
handled (handlePeerResponse deletes the key equal to the source peer id,
never the request id), and the duplicate response with the same
correlation id is re-emitted on the message rather than dropped. -/
theorem c6_correlation_entry_survives :
    (runResponses c6Table [c6Resp1, c6Resp1, c6Resp2] false).2 =
      [Except.ok ("peer-1", "answer-1")] ∧
    ((objGet (handlePeerResponse c6Table c6Resp1).1 "peer-1").map
        (fun t => objGet t.reqs "req-1")) = some (some "req-1") ∧
    (handlePeerResponse (handlePeerResponse c6Table c6Resp1).1 c6Resp1).2 =
      Emission.response "peer-1" "answer-1" := by decide

/- ===================== Claim C9 ===================== -/

/-- C9, the code at the failing input: with the default namespace, the
single AddPortMapping request openPort issues for the one non-loopback
interface carries the literal description desc, not the namespace
node:Gateway, and listOpenPorts — which filters by the namespace —
consequently returns none of the mappings this instance created. -/
theorem c9_description_mismatch :
    (openPortMappings "tcp" 8080 ["192.168.0.10"]).map Mapping.description =
      ["desc"] ∧
    (openPortMappings "tcp" 8080 ["192.168.0.10"]).length = 1 ∧
    gatewayNamespace none = "node:Gateway" ∧
    listOpenPorts none (openPortMappings "tcp" 8080 ["192.168.0.10"]) = [] ∧
    openPortMappings "tcp" 8080 ["192.168.0.10"] ≠ [] := by decide

end NodeDatastore
